import Mathlib

/-!
Shallow embedding of the outbound-connection scheduler and the service
lifecycle supervisor of `src/server/start_service.py` (chia-blockchain fork).

The scheduler (`connect_to_peers` inside
`create_periodic_introducer_poll_task`) runs an unbounded loop; we embed the
body of one loop iteration as a pure function over an environment that fixes
the values the iteration reads from its collaborators (`global_connections`,
the address manager, the two clock reads, and the results of the candidate
draws).  Side effects (calls into the address manager, dials) are recorded as
an event trace; a Python `UnboundLocalError` is modelled as an `error` field.

The lifecycle supervisor (`Service.stop`) is embedded as a function on an
explicit service state; Python attributes that are only created inside the
background task spawned by `start()` are modelled with `Option` (where `none`
means the attribute does not exist yet, so accessing it raises
`AttributeError`).
-/

/-- `PeerInfo` as used by the scheduler: an address with its network group
(`get_group()` derives the group from the IP routing prefix; we carry the
group as data since its derivation is outside this file's scope). -/
structure PeerInfo where
  host : String
  port : Nat
  group : Nat
deriving DecidableEq, Repr

/-- `PeerInfo.get_group()` — the network-group classification of an address. -/
def PeerInfo.get_group (p : PeerInfo) : Nat := p.group

/-- `ExtendedPeerInfo` as consumed by `connect_to_peers`: the embedded
address and the last-attempt timestamp (`last_try`, seconds). -/
structure ExtendedPeerInfo where
  peer_info : PeerInfo
  last_try : Int
deriving DecidableEq, Repr

/-- Observable actions of one scheduler iteration, in program order. -/
inductive Event where
  | resolve_collisions
  | select_collision
  | select_peer_call
  | dial_introducer
  | close_introducers
  | dial (a : PeerInfo) (disconnect_after_handshake : Bool)
deriving DecidableEq, Repr

/-- One pass of the candidate loop calls `select_tried_collision()` and then
possibly `select_peer(is_feeler)`; a draw oracle gives both results for each
pass. -/
abbrev Draws := Nat → Option ExtendedPeerInfo × Option ExtendedPeerInfo

/-- `info` after lines 116–121: the collision candidate, overridden by
`select_peer` when `not is_feeler or info is None`. -/
def pass_info (is_f : Bool) (d : Option ExtendedPeerInfo × Option ExtendedPeerInfo) :
    Option ExtendedPeerInfo :=
  if is_f = false ∨ d.1 = none then d.2 else d.1

/-- Address-manager calls made by one pass of the candidate loop:
`select_tried_collision()` always, `select_peer` under the same condition as
in `pass_info`. -/
def pass_events (is_f : Bool) (d : Option ExtendedPeerInfo × Option ExtendedPeerInfo) :
    List Event :=
  if is_f = false ∨ d.1 = none then [Event.select_collision, Event.select_peer_call]
  else [Event.select_collision]

/-- Result of the candidate loop (lines 112–140): the Python locals `tries`,
`addr` (as a binding: `none` means the variable is unbound), `got_peer`, the
accumulated event trace, and the number of passes executed. -/
structure LoopResult where
  tries : Nat
  addr : Option PeerInfo
  got_peer : Bool
  events : List Event
  passes : Nat
deriving DecidableEq, Repr

/-- The candidate loop `while not got_peer: ...` of lines 115–140.  `p` is
the index of the next pass, `tries` and `addr` are the current values of the
Python locals, `evs` the trace so far.  Fuel bounds the recursion; every
`continue` strictly increases `tries` and requires `tries < 30`, so fuel `31`
already suffices and the caller's `102` is never exhausted. -/
def select_loop (is_f : Bool) (groups : List Nat) (now : Int) (draws : Draws) :
    Nat → Nat → Nat → Option PeerInfo → List Event → LoopResult
  | 0, p, tries, addr, evs => ⟨tries, addr, false, evs, p⟩
  | fuel + 1, p, tries, addr, evs =>
    match pass_info is_f (draws p) with
    | none => ⟨tries, addr, false, evs ++ pass_events is_f (draws p), p + 1⟩
    | some i =>
      if is_f = false ∧ i.peer_info.get_group ∈ groups then
        ⟨tries, some i.peer_info, false, evs ++ pass_events is_f (draws p), p + 1⟩
      else if tries + 1 > 100 then
        ⟨tries + 1, some i.peer_info, false, evs ++ pass_events is_f (draws p), p + 1⟩
      else if now - i.last_try < 600 ∧ tries + 1 < 30 then
        select_loop is_f groups now draws fuel (p + 1) (tries + 1)
          (some i.peer_info) (evs ++ pass_events is_f (draws p))
      else
        ⟨tries + 1, some i.peer_info, true, evs ++ pass_events is_f (draws p), p + 1⟩

/-- Everything one scheduler iteration reads from its collaborators:
the address-book `size()`, the `get_group()` values of
`get_outbound_connections()` (in iteration order, possibly with duplicates),
the outbound target and count backing `_num_needed_peers()`, the two clock
reads (`time.time() * 1000 * 1000` in line 104 and `time.time()` in
line 113), the freshly drawn Poisson deadline `redraw` (the value
`poisson_next_send` would return in line 105), and the draw oracle. -/
structure SchedulerEnv where
  size : Nat
  outbound_groups : List Nat
  target_outbound_count : Int
  count_outbound : Int
  now_us : Int
  now : Int
  redraw : Int
  draws : Draws

/-- `_num_needed_peers()`: `target - count` clamped at zero. -/
def num_needed_peers (env : SchedulerEnv) : Int :=
  let diff := env.target_outbound_count - env.count_outbound
  if diff ≥ 0 then diff else 0

/-- `groups` as built in lines 82–86: group values of the outbound
connections, de-duplicated preserving first occurrence. -/
def collect_groups (outbound : List Nat) : List Nat :=
  outbound.foldl (fun groups g => if g ∈ groups then groups else groups ++ [g]) []

/-- The actions of one `introducer_client()` call (lines 56–70): dial the
introducer when `_num_needed_peers()` is truthy, then sweep-close any
connection to the introducer. -/
def introducer_client_events (env : SchedulerEnv) : List Event :=
  (if num_needed_peers env ≠ 0 then [Event.dial_introducer] else []) ++
    [Event.close_introducers]

/-- Outcome of one scheduler iteration: the (possibly redrawn) feeler
deadline, whether this iteration was a feeler, the outgoing binding of the
Python local `addr`, the loop's `got_peer` and `tries`, the number of
candidate passes, the event trace, and the uncaught exception if any. -/
structure IterResult where
  next_feeler : Int
  is_feeler : Bool
  addr : Option PeerInfo
  got_peer : Bool
  tries : Nat
  passes : Nat
  trace : List Event
  error : Option String
deriving DecidableEq, Repr

/-- Lines 110–146, the tail of an iteration that reaches candidate
selection: resolve collisions, run the candidate loop, compute the
disconnect flag (lines 142–144 set it when `_num_needed_peers() > 0`), and
evaluate the dial guard `if addr is not None` on the raw binding of `addr`.
This phase is only reached when the feeler decision did not `continue`, so
when `num_needed_peers > 0` the deadline had passed and the iteration is a
feeler; `phase_is_feeler` is therefore the value the local `is_feeler` holds
on entry to line 110. -/
def phase_is_feeler (env : SchedulerEnv) : Bool :=
  decide (num_needed_peers env > 0)

/-- The redrawn deadline (line 105 redraws exactly when the feeler branch
was taken, which in this phase coincides with `num_needed_peers > 0`). -/
def phase_next_feeler (env : SchedulerEnv) (next_feeler : Int) : Int :=
  if num_needed_peers env > 0 then env.redraw else next_feeler

/-- The candidate loop as run by the selection phase, with its initial trace
holding the `resolve_tried_collisions()` call of line 111. -/
def phase_loop (env : SchedulerEnv) (addr0 : Option PeerInfo) : LoopResult :=
  select_loop (phase_is_feeler env) (collect_groups env.outbound_groups)
    env.now env.draws 102 0 0 addr0 [Event.resolve_collisions]

/-- The disconnect flag of lines 142–144: `is_feeler`, overridden to `True`
when `_num_needed_peers() > 0`. -/
def phase_disconnect (env : SchedulerEnv) : Bool :=
  phase_is_feeler env || decide (num_needed_peers env > 0)

/-- The selection-and-dial tail itself: run the candidate loop and evaluate
the dial guard `if addr is not None` (line 145) on the raw binding of
`addr`; an unbound `addr` raises `UnboundLocalError`. -/
def selection_phase (env : SchedulerEnv) (next_feeler : Int)
    (addr0 : Option PeerInfo) : IterResult :=
  match (phase_loop env addr0).addr with
  | none =>
    ⟨phase_next_feeler env next_feeler, phase_is_feeler env, none,
      (phase_loop env addr0).got_peer, (phase_loop env addr0).tries,
      (phase_loop env addr0).passes, (phase_loop env addr0).events,
      some "UnboundLocalError: local variable addr referenced before assignment"⟩
  | some a =>
    ⟨phase_next_feeler env next_feeler, phase_is_feeler env, some a,
      (phase_loop env addr0).got_peer, (phase_loop env addr0).tries,
      (phase_loop env addr0).passes,
      (phase_loop env addr0).events ++ [Event.dial a (phase_disconnect env)],
      none⟩

/-- The body of one iteration of the `while True` loop of `connect_to_peers`
(lines 74–147).  `next_feeler` is the current deadline and `addr0` the
binding of the function-scoped local `addr` carried over from earlier
iterations (`none` = never assigned).  Line numbers refer to
`src/server/start_service.py`. -/
def connect_to_peers_iteration (env : SchedulerEnv) (next_feeler : Int)
    (addr0 : Option PeerInfo) : IterResult :=
  -- lines 76–79: empty address book → introducer bootstrap, `continue`
  if env.size = 0 then
    ⟨next_feeler, false, addr0, false, 0, 0, introducer_client_events env, none⟩
  -- lines 101–108: feeler decision; `continue` when needed > 0 and the
  -- deadline has not passed
  else if num_needed_peers env > 0 ∧ ¬ env.now_us > next_feeler then
    ⟨next_feeler, false, addr0, false, 0, 0, [], none⟩
  else
    selection_phase env next_feeler addr0

/-! ### Lifecycle supervisor: `Service.stop` (lines 293–303)

`Service.__init__` creates `_task`, `_is_stopping`, `_server_sockets`;
`_reconnect_tasks`, `_introducer_poll_task` and `_rpc_task` are only created
inside the coroutine `_run` spawned by `start()`.  We model the attributes
`stop()` touches; `Option` distinguishes a missing attribute (`none`) from a
present one, and `introducer_poll_task = some none` models the attribute
being present but `None`. -/

/-- Observable effects of `stop()`, in program order. -/
inductive StopEffect where
  | close_socket (s : Nat)
  | cancel_reconnect (t : Nat)
  | close_all_connections
  | cancel_introducer_poll (t : Nat)
deriving DecidableEq, Repr

/-- The attributes of a `Service` instance that `stop()` reads or writes. -/
structure ServiceState where
  is_stopping : Bool
  server_sockets : List Nat
  reconnect_tasks : Option (List Nat)
  introducer_poll_task : Option (Option Nat)
  api_shut_down : Bool
deriving DecidableEq, Repr

/-- What one `stop()` call produces: the updated state, the effects it
performed, and the uncaught exception if any. -/
structure StopResult where
  state : ServiceState
  effects : List StopEffect
  error : Option String
deriving DecidableEq, Repr

/-- `Service.stop` (lines 293–303).  Guarded by `_is_stopping`; closes the
server sockets, cancels the reconnect tasks (raising `AttributeError` when
`_run` has not created `_reconnect_tasks` yet), closes all connections, flags
the API as shut down, and cancels the introducer poll task if present. -/
def Service.stop (s : ServiceState) : StopResult :=
  if s.is_stopping then ⟨s, [], none⟩
  else
    let s1 := { s with is_stopping := true }
    let socket_effects := s.server_sockets.map StopEffect.close_socket
    match s.reconnect_tasks with
    | none => ⟨s1, socket_effects, some "AttributeError: _reconnect_tasks"⟩
    | some ts =>
      let eff := socket_effects ++ ts.map StopEffect.cancel_reconnect ++
        [StopEffect.close_all_connections]
      let s2 := { s1 with api_shut_down := true }
      match s.introducer_poll_task with
      | none => ⟨s2, eff, some "AttributeError: _introducer_poll_task"⟩
      | some none => ⟨s2, eff, none⟩
      | some (some t) => ⟨s2, eff ++ [StopEffect.cancel_introducer_poll t], none⟩

/-- The state right after `Service.__init__` (lines 211–221): not stopping,
no server sockets yet, and none of the `_run`-created attributes exist. -/
def initServiceState : ServiceState :=
  ⟨false, [], none, none, false⟩

/-! ### Concrete environments used to evaluate the scheduler iteration -/

/-- An address outside every outbound network group. -/
def peerFresh : PeerInfo := ⟨"203.0.113.9", 8444, 77⟩

/-- An address in network group 5. -/
def peerGrouped : PeerInfo := ⟨"198.51.100.2", 8444, 5⟩

/-- An address drawn repeatedly in the recency counterexample. -/
def peerRecent : PeerInfo := ⟨"192.0.2.33", 8444, 9⟩

/-- Outbound target met (`needed == 0`), one stored address, the single draw
yields `peerFresh`, last tried long ago. -/
def env_needed_zero_accept : SchedulerEnv :=
  ⟨1, [], 3, 3, 0, 10000, 0, fun _ => (none, some ⟨peerFresh, 0⟩)⟩

/-- Outbound target met, one outbound connection in group 5, every draw
yields `peerGrouped` (also group 5), last tried long ago. -/
def env_group_collision : SchedulerEnv :=
  ⟨1, [5], 3, 3, 0, 10000, 0, fun _ => (none, some ⟨peerGrouped, 0⟩)⟩

/-- Outbound connections in groups 5, 5 and 7; the draw yields `peerGrouped`
(group 5, already represented). -/
def env_group_dedup : SchedulerEnv :=
  ⟨1, [5, 5, 7], 3, 3, 0, 10000, 0, fun _ => (none, some ⟨peerGrouped, 0⟩)⟩

/-- Non-empty address book but both selectors return nothing on every
pass. -/
def env_no_candidate : SchedulerEnv :=
  ⟨2, [], 3, 3, 0, 10000, 0, fun _ => (none, none)⟩

/-- Every draw yields `peerRecent`, last attempted 1 second before the
iteration's `now`. -/
def env_recent_pool : SchedulerEnv :=
  ⟨1, [], 3, 3, 0, 1000, 0, fun _ => (none, some ⟨peerRecent, 999⟩)⟩

/-! ### Claim theorems -/

/-- C1: evaluation of the code at the failing input.  On a non-feeler
iteration with `needed == 0` (outbound target already met) that accepts a
candidate, the dial is issued with `disconnect_after_handshake = false`,
because lines 142–144 set the flag when `_num_needed_peers() > 0` instead of
`== 0`; the claim (and the spec) require the flag to be `true` exactly when
the iteration is a feeler or `needed == 0`. -/
theorem C1_dial_flag_eval :
    num_needed_peers env_needed_zero_accept = 0 ∧
    (connect_to_peers_iteration env_needed_zero_accept 0 none).is_feeler = false ∧
    (connect_to_peers_iteration env_needed_zero_accept 0 none).trace =
      [Event.resolve_collisions, Event.select_collision, Event.select_peer_call,
        Event.dial peerFresh false] := by
  refine ⟨rfl, rfl, rfl⟩

/-- C2: evaluation of the code at the failing input.  The candidate loop
rejects its only candidate (network-group diversity) and ends with
`got_peer = false`, yet the iteration still spawns a connection attempt to
that rejected candidate, because line 145 guards the dial only with
`addr is not None` and `addr` was bound at line 125 before the rejection. -/
theorem C2_dials_rejected_candidate_eval :
    (connect_to_peers_iteration env_group_collision 0 none).got_peer = false ∧
    Event.dial peerGrouped false ∈
      (connect_to_peers_iteration env_group_collision 0 none).trace := by
  exact ⟨rfl, by decide⟩

/-- C3: evaluation of the code at the failing input.  On the first scheduler
iteration with a non-empty address book in which the very first draw returns
no candidate (`select_tried_collision` and `select_peer` both `None`), the
local `addr` is never assigned, and evaluating the dial guard
`if addr is not None` raises `UnboundLocalError` — the iteration does not
terminate normally as the claim states. -/
theorem C3_unbound_addr_eval :
    (connect_to_peers_iteration env_no_candidate 0 none).error =
      some "UnboundLocalError: local variable addr referenced before assignment" := by
  rfl

/-- C4: evaluation of the code at the failing input.  On a non-feeler
iteration, a candidate whose group is already represented among outbound
connections causes the candidate loop to `break` after a single pass — no
fresh candidate is drawn — and the iteration then dials that very candidate,
so the dialed address belongs to the outbound-groups set, contradicting the
claim on both the redraw mechanism and the dialed-address property. -/
theorem C4_group_dialed_eval :
    peerGrouped.get_group ∈ collect_groups env_group_dedup.outbound_groups ∧
    (connect_to_peers_iteration env_group_dedup 0 none).passes = 1 ∧
    (connect_to_peers_iteration env_group_dedup 0 none).got_peer = false ∧
    Event.dial peerGrouped false ∈
      (connect_to_peers_iteration env_group_dedup 0 none).trace := by
  refine ⟨by decide, rfl, rfl, by decide⟩

/-- C5, counterexample to the claim as stated.  With a pool in which every
drawn candidate was last attempted 1 second ago, the loop skips the first 29
candidates but accepts the 30th (`tries = 30`, the dial appears in the
trace), although that candidate is recent and only 29 candidates — fewer
than 30 — had been rejected in this iteration; the claim says it should
still have been skipped. -/
theorem C5_thirtieth_recent_accepted :
    env_recent_pool.now - 999 < 600 ∧
    (connect_to_peers_iteration env_recent_pool 0 none).got_peer = true ∧
    (connect_to_peers_iteration env_recent_pool 0 none).tries = 30 ∧
    (connect_to_peers_iteration env_recent_pool 0 none).passes = 30 ∧
    Event.dial peerRecent false ∈
      (connect_to_peers_iteration env_recent_pool 0 none).trace := by
  refine ⟨by decide, rfl, rfl, rfl, by decide⟩

/-! ### Structural lemmas about the candidate loop -/

/-- One-step unfolding of the candidate loop at a pass whose drawn candidate
passes the group filter and the tries budget: the candidate is either
skipped for recency (redraw) or accepted. -/
theorem select_loop_step (is_f : Bool) (groups : List Nat) (now : Int)
    (draws : Draws) (fuel p tries : Nat) (addr : Option PeerInfo)
    (evs : List Event) (i : ExtendedPeerInfo)
    (hpi : pass_info is_f (draws p) = some i)
    (hg : ¬ (is_f = false ∧ i.peer_info.get_group ∈ groups))
    (hb : ¬ tries + 1 > 100) :
    select_loop is_f groups now draws (fuel + 1) p tries addr evs =
      if now - i.last_try < 600 ∧ tries + 1 < 30 then
        select_loop is_f groups now draws fuel (p + 1) (tries + 1)
          (some i.peer_info) (evs ++ pass_events is_f (draws p))
      else
        ⟨tries + 1, some i.peer_info, true,
          evs ++ pass_events is_f (draws p), p + 1⟩ := by
  simp [select_loop, hpi, hg, hb]

/-- The candidate loop only appends to the event trace it is given, and it
only appends selector calls. -/
theorem select_loop_events_mono (is_f : Bool) (groups : List Nat) (now : Int)
    (draws : Draws) :
    ∀ fuel p tries addr evs, ∃ suffix,
      (select_loop is_f groups now draws fuel p tries addr evs).events =
        evs ++ suffix ∧
      ∀ e ∈ suffix, e = Event.select_collision ∨ e = Event.select_peer_call := by
  intro fuel
  induction fuel with
  | zero =>
    intro p tries addr evs
    exact ⟨[], by simp [select_loop], by simp⟩
  | succ n ih =>
    intro p tries addr evs
    have hpe : ∀ e ∈ pass_events is_f (draws p),
        e = Event.select_collision ∨ e = Event.select_peer_call := by
      intro e he
      unfold pass_events at he
      split at he <;> simp_all
    cases hpi : pass_info is_f (draws p) with
    | none =>
      exact ⟨pass_events is_f (draws p), by simp [select_loop, hpi], hpe⟩
    | some i =>
      by_cases hg : is_f = false ∧ i.peer_info.get_group ∈ groups
      · obtain ⟨hf, hmem⟩ := hg
        subst hf
        exact ⟨pass_events false (draws p), by simp [select_loop, hpi, hmem], hpe⟩
      · by_cases hb : tries + 1 > 100
        · exact ⟨pass_events is_f (draws p), by simp [select_loop, hpi, hg, hb], hpe⟩
        · by_cases hr : now - i.last_try < 600 ∧ tries + 1 < 30
          · obtain ⟨suf, hsuf, hall⟩ :=
              ih (p + 1) (tries + 1) (some i.peer_info)
                (evs ++ pass_events is_f (draws p))
            refine ⟨pass_events is_f (draws p) ++ suf, ?_, ?_⟩
            · rw [select_loop_step is_f groups now draws n p tries addr evs i hpi hg hb,
                if_pos hr, hsuf, List.append_assoc]
            · intro e he
              rcases List.mem_append.mp he with h | h
              · exact hpe e h
              · exact hall e h
          · exact ⟨pass_events is_f (draws p),
              by rw [select_loop_step is_f groups now draws n p tries addr evs i hpi hg hb,
                if_neg hr], hpe⟩

/-- The pass counter never decreases. -/
theorem select_loop_passes_le (is_f : Bool) (groups : List Nat) (now : Int)
    (draws : Draws) :
    ∀ fuel p tries addr evs,
      p ≤ (select_loop is_f groups now draws fuel p tries addr evs).passes := by
  intro fuel
  induction fuel with
  | zero => intro p tries addr evs; simp [select_loop]
  | succ n ih =>
    intro p tries addr evs
    cases hpi : pass_info is_f (draws p) with
    | none => simp [select_loop, hpi]
    | some i =>
      by_cases hg : is_f = false ∧ i.peer_info.get_group ∈ groups
      · obtain ⟨hf, hmem⟩ := hg
        subst hf
        simp [select_loop, hpi, hmem]
      · by_cases hb : tries + 1 > 100
        · simp [select_loop, hpi, hg, hb]
        · by_cases hr : now - i.last_try < 600 ∧ tries + 1 < 30
          · rw [select_loop_step is_f groups now draws n p tries addr evs i hpi hg hb,
              if_pos hr]
            exact le_trans (Nat.le_succ p)
              (ih (p + 1) (tries + 1) (some i.peer_info) _)
          · rw [select_loop_step is_f groups now draws n p tries addr evs i hpi hg hb,
              if_neg hr]
            exact Nat.le_succ p

/-- When the loop ends with `got_peer`, at least one pass beyond `p` ran. -/
theorem select_loop_got_peer_passes (is_f : Bool) (groups : List Nat)
    (now : Int) (draws : Draws) :
    ∀ fuel p tries addr evs,
      (select_loop is_f groups now draws fuel p tries addr evs).got_peer = true →
      p + 1 ≤ (select_loop is_f groups now draws fuel p tries addr evs).passes := by
  intro fuel
  induction fuel with
  | zero => intro p tries addr evs h; simp [select_loop] at h
  | succ n ih =>
    intro p tries addr evs h
    cases hpi : pass_info is_f (draws p) with
    | none => simp [select_loop, hpi] at h
    | some i =>
      by_cases hg : is_f = false ∧ i.peer_info.get_group ∈ groups
      · obtain ⟨hf, hmem⟩ := hg
        subst hf
        simp [select_loop, hpi, hmem] at h
      · by_cases hb : tries + 1 > 100
        · simp [select_loop, hpi, hg, hb] at h
        · by_cases hr : now - i.last_try < 600 ∧ tries + 1 < 30
          · rw [select_loop_step is_f groups now draws n p tries addr evs i hpi hg hb,
              if_pos hr]
            exact select_loop_passes_le is_f groups now draws n (p + 1)
              (tries + 1) (some i.peer_info) _
          · rw [select_loop_step is_f groups now draws n p tries addr evs i hpi hg hb,
              if_neg hr]

/-! ### Branch lemmas for the iteration -/

/-- Empty address book (line 77): the iteration is exactly the introducer
bootstrap. -/
theorem iteration_empty (env : SchedulerEnv) (nf : Int) (a0 : Option PeerInfo)
    (hsize : env.size = 0) :
    connect_to_peers_iteration env nf a0 =
      ⟨nf, false, a0, false, 0, 0, introducer_client_events env, none⟩ := by
  unfold connect_to_peers_iteration
  rw [if_pos hsize]

/-- Feeler deadline not passed while peers are needed (line 108): the
iteration is skipped wholesale. -/
theorem iteration_skip (env : SchedulerEnv) (nf : Int) (a0 : Option PeerInfo)
    (hsize : ¬ env.size = 0)
    (hc : num_needed_peers env > 0 ∧ ¬ env.now_us > nf) :
    connect_to_peers_iteration env nf a0 = ⟨nf, false, a0, false, 0, 0, [], none⟩ := by
  unfold connect_to_peers_iteration
  rw [if_neg hsize, if_pos hc]

/-- Otherwise the iteration runs the selection phase. -/
theorem iteration_selection (env : SchedulerEnv) (nf : Int) (a0 : Option PeerInfo)
    (hsize : ¬ env.size = 0)
    (hc : ¬ (num_needed_peers env > 0 ∧ ¬ env.now_us > nf)) :
    connect_to_peers_iteration env nf a0 = selection_phase env nf a0 := by
  unfold connect_to_peers_iteration
  rw [if_neg hsize, if_neg hc]

/-- Whatever the candidate loop does, the selection phase reports the
feeler flag and deadline of the phase, and its trace starts with the
`resolve_tried_collisions()` call. -/
theorem selection_phase_fields (env : SchedulerEnv) (nf : Int)
    (a0 : Option PeerInfo) :
    (selection_phase env nf a0).is_feeler = phase_is_feeler env ∧
    (selection_phase env nf a0).next_feeler = phase_next_feeler env nf ∧
    (selection_phase env nf a0).trace.head? = some Event.resolve_collisions := by
  obtain ⟨suf, hsuf, -⟩ := select_loop_events_mono (phase_is_feeler env)
    (collect_groups env.outbound_groups) env.now env.draws 102 0 0 a0
    [Event.resolve_collisions]
  have hev : (phase_loop env a0).events = Event.resolve_collisions :: suf := hsuf
  cases haddr : (phase_loop env a0).addr with
  | none => refine ⟨?_, ?_, ?_⟩ <;> simp [selection_phase, haddr, hev]
  | some a => refine ⟨?_, ?_, ?_⟩ <;> simp [selection_phase, haddr, hev]

/-- C5 (amended): at a pass of the candidate loop entered with `r` candidates
already rejected this iteration (the loop counter `tries` equals the number
of recency rejections so far, every non-final pass being one), whose drawn
candidate passes the group filter and the 100-tries budget: the candidate is
skipped and another candidate drawn exactly when its last attempt was under
600 seconds before the loop's start time and fewer than 29 candidates were
already rejected (`r + 1 < 30`); from the 30th drawn candidate onward (at
least 29 rejections) recency is ignored and the candidate is accepted at
this very pass, as is any candidate last attempted 600 or more seconds
ago. -/
theorem C5_backoff_amended (is_f : Bool) (groups : List Nat) (now : Int)
    (draws : Draws) (fuel p r : Nat) (addr : Option PeerInfo)
    (evs : List Event) (i : ExtendedPeerInfo)
    (hdraw : pass_info is_f (draws p) = some i)
    (hgroup : ¬ (is_f = false ∧ i.peer_info.get_group ∈ groups))
    (hbudget : ¬ r + 1 > 100) :
    ((now - i.last_try < 600 ∧ r + 1 < 30) →
      select_loop is_f groups now draws (fuel + 1) p r addr evs =
        select_loop is_f groups now draws fuel (p + 1) (r + 1)
          (some i.peer_info) (evs ++ pass_events is_f (draws p))) ∧
    (¬ (now - i.last_try < 600 ∧ r + 1 < 30) →
      select_loop is_f groups now draws (fuel + 1) p r addr evs =
        ⟨r + 1, some i.peer_info, true, evs ++ pass_events is_f (draws p), p + 1⟩) ∧
    (((select_loop is_f groups now draws (fuel + 1) p r addr evs).got_peer = true ∧
      (select_loop is_f groups now draws (fuel + 1) p r addr evs).passes = p + 1) ↔
      ¬ (now - i.last_try < 600 ∧ r + 1 < 30)) := by
  have hstep := select_loop_step is_f groups now draws fuel p r addr evs i
    hdraw hgroup hbudget
  refine ⟨fun hr => by rw [hstep, if_pos hr], fun hr => by rw [hstep, if_neg hr], ?_⟩
  constructor
  · rintro ⟨hg, hp⟩ hr
    rw [hstep, if_pos hr] at hg hp
    have hge := select_loop_got_peer_passes is_f groups now draws fuel (p + 1)
      (r + 1) (some i.peer_info) (evs ++ pass_events is_f (draws p)) hg
    rw [hp] at hge
    omega
  · intro hr
    rw [hstep, if_neg hr]
    exact ⟨rfl, rfl⟩

/-- The repeatedly drawn recent candidate of the backoff scenarios. -/
def epi_recent : ExtendedPeerInfo := ⟨peerRecent, 999⟩

/-- Witness for `C5_backoff_amended` at a concrete pass: the loop with no
rejections yet (`r = 0`) skips the recent candidate and redraws. -/
theorem C5_backoff_amended_witness :
    pass_info false ((fun _ => (none, some epi_recent) : Draws) 0) = some epi_recent ∧
    ¬ (false = false ∧ epi_recent.peer_info.get_group ∈ ([] : List Nat)) ∧
    ¬ (0 : Nat) + 1 > 100 ∧
    (((1000 : Int) - epi_recent.last_try < 600 ∧ 0 + 1 < 30) →
      select_loop false [] 1000 (fun _ => (none, some epi_recent)) (5 + 1) 0 0 none [] =
        select_loop false [] 1000 (fun _ => (none, some epi_recent)) 5 (0 + 1) (0 + 1)
          (some epi_recent.peer_info)
          ([] ++ pass_events false ((fun _ => (none, some epi_recent) : Draws) 0))) ∧
    (¬ ((1000 : Int) - epi_recent.last_try < 600 ∧ 0 + 1 < 30) →
      select_loop false [] 1000 (fun _ => (none, some epi_recent)) (5 + 1) 0 0 none [] =
        ⟨0 + 1, some epi_recent.peer_info, true,
          [] ++ pass_events false ((fun _ => (none, some epi_recent) : Draws) 0), 0 + 1⟩) ∧
    (((select_loop false [] 1000 (fun _ => (none, some epi_recent)) (5 + 1) 0 0 none []).got_peer = true ∧
      (select_loop false [] 1000 (fun _ => (none, some epi_recent)) (5 + 1) 0 0 none []).passes = 0 + 1) ↔
      ¬ ((1000 : Int) - epi_recent.last_try < 600 ∧ 0 + 1 < 30)) := by
  refine ⟨rfl, by decide, by decide, ?_⟩
  exact C5_backoff_amended false [] 1000 (fun _ => (none, some epi_recent)) 5 0 0
    none [] epi_recent rfl (by decide) (by decide)

/-- C6: with a non-empty address book, when `needed > 0` and the clock passed
the deadline the iteration is a feeler and the deadline is redrawn (to the
fresh Poisson draw `redraw`); when `needed > 0` and the deadline has not
passed the iteration is skipped wholesale (no selection, no dial, nothing
changed); and an iteration is a feeler only when `needed > 0` and the
deadline had passed. -/
theorem C6_feeler_decision (env : SchedulerEnv) (nf : Int) (a0 : Option PeerInfo)
    (hsize : env.size ≠ 0) :
    (num_needed_peers env > 0 → env.now_us > nf →
      (connect_to_peers_iteration env nf a0).is_feeler = true ∧
      (connect_to_peers_iteration env nf a0).next_feeler = env.redraw) ∧
    (num_needed_peers env > 0 → ¬ env.now_us > nf →
      connect_to_peers_iteration env nf a0 =
        ⟨nf, false, a0, false, 0, 0, [], none⟩) ∧
    ((connect_to_peers_iteration env nf a0).is_feeler = true →
      num_needed_peers env > 0 ∧ env.now_us > nf) := by
  refine ⟨?_, ?_, ?_⟩
  · intro hn hlt
    have hc : ¬ (num_needed_peers env > 0 ∧ ¬ env.now_us > nf) := fun h => h.2 hlt
    rw [iteration_selection env nf a0 hsize hc]
    obtain ⟨h1, h2, -⟩ := selection_phase_fields env nf a0
    refine ⟨by rw [h1]; simp [phase_is_feeler, hn], by rw [h2]; simp [phase_next_feeler, hn]⟩
  · intro hn hnlt
    exact iteration_skip env nf a0 hsize ⟨hn, hnlt⟩
  · intro hf
    by_cases hc : num_needed_peers env > 0 ∧ ¬ env.now_us > nf
    · rw [iteration_skip env nf a0 hsize hc] at hf
      simp at hf
    · rw [iteration_selection env nf a0 hsize hc] at hf
      obtain ⟨h1, -, -⟩ := selection_phase_fields env nf a0
      rw [h1] at hf
      have hn : num_needed_peers env > 0 := by simpa [phase_is_feeler] using hf
      exact ⟨hn, by by_contra hnlt; exact hc ⟨hn, hnlt⟩⟩

/-- A non-empty set of outbound connections short of the target, so
`needed > 0`; the clock is past the deadline `10`. -/
def env_feeler : SchedulerEnv :=
  ⟨1, [], 3, 1, 50, 10000, 123, fun _ => (none, some ⟨peerFresh, 0⟩)⟩

/-- Witness for `C6_feeler_decision` at `env_feeler` with deadline 10. -/
theorem C6_feeler_decision_witness :
    env_feeler.size ≠ 0 ∧
    ((num_needed_peers env_feeler > 0 → env_feeler.now_us > 10 →
      (connect_to_peers_iteration env_feeler 10 none).is_feeler = true ∧
      (connect_to_peers_iteration env_feeler 10 none).next_feeler = env_feeler.redraw) ∧
    (num_needed_peers env_feeler > 0 → ¬ env_feeler.now_us > 10 →
      connect_to_peers_iteration env_feeler 10 none =
        ⟨10, false, none, false, 0, 0, [], none⟩) ∧
    ((connect_to_peers_iteration env_feeler 10 none).is_feeler = true →
      num_needed_peers env_feeler > 0 ∧ env_feeler.now_us > 10)) :=
  ⟨by decide, C6_feeler_decision env_feeler 10 none (by decide)⟩

/-- C7: when the address book is empty, the iteration runs only the
introducer bootstrap (lines 76–79): it raises no error, issues no dial to a
non-introducer address, makes no candidate-selection call, leaves the feeler
deadline and the `addr` binding unchanged, and retries next iteration. -/
theorem C7_empty_book_introducer_only (env : SchedulerEnv) (nf : Int)
    (a0 : Option PeerInfo) (hsize : env.size = 0) :
    (connect_to_peers_iteration env nf a0).error = none ∧
    (∀ a d, Event.dial a d ∉ (connect_to_peers_iteration env nf a0).trace) ∧
    Event.select_collision ∉ (connect_to_peers_iteration env nf a0).trace ∧
    Event.select_peer_call ∉ (connect_to_peers_iteration env nf a0).trace ∧
    (connect_to_peers_iteration env nf a0).next_feeler = nf ∧
    (connect_to_peers_iteration env nf a0).addr = a0 := by
  rw [iteration_empty env nf a0 hsize]
  refine ⟨rfl, ?_, ?_, ?_, rfl, rfl⟩
  · intro a d
    by_cases hn : num_needed_peers env ≠ 0 <;> simp [introducer_client_events, hn]
  · by_cases hn : num_needed_peers env ≠ 0 <;> simp [introducer_client_events, hn]
  · by_cases hn : num_needed_peers env ≠ 0 <;> simp [introducer_client_events, hn]

/-- An empty address book, with peers still needed. -/
def env_empty_book : SchedulerEnv :=
  ⟨0, [], 3, 1, 0, 0, 0, fun _ => (none, none)⟩

/-- Witness for `C7_empty_book_introducer_only` at `env_empty_book`. -/
theorem C7_empty_book_introducer_only_witness :
    env_empty_book.size = 0 ∧
    ((connect_to_peers_iteration env_empty_book 7 none).error = none ∧
    (∀ a d, Event.dial a d ∉ (connect_to_peers_iteration env_empty_book 7 none).trace) ∧
    Event.select_collision ∉ (connect_to_peers_iteration env_empty_book 7 none).trace ∧
    Event.select_peer_call ∉ (connect_to_peers_iteration env_empty_book 7 none).trace ∧
    (connect_to_peers_iteration env_empty_book 7 none).next_feeler = 7 ∧
    (connect_to_peers_iteration env_empty_book 7 none).addr = none) :=
  ⟨rfl, C7_empty_book_introducer_only env_empty_book 7 none rfl⟩

/-- C8: in any scheduler iteration whose trace contains a selector call
(`select_tried_collision` or `select_peer`), the very first recorded action
is `resolve_tried_collisions()` — so collision resolution always precedes
candidate selection within an iteration. -/
theorem C8_resolve_before_select (env : SchedulerEnv) (nf : Int)
    (a0 : Option PeerInfo)
    (h : Event.select_collision ∈ (connect_to_peers_iteration env nf a0).trace ∨
      Event.select_peer_call ∈ (connect_to_peers_iteration env nf a0).trace) :
    (connect_to_peers_iteration env nf a0).trace.head? =
      some Event.resolve_collisions := by
  by_cases hsize : env.size = 0
  · exfalso
    rw [iteration_empty env nf a0 hsize] at h
    rcases h with h | h <;>
      · by_cases hn : num_needed_peers env ≠ 0 <;>
          simp [introducer_client_events, hn] at h
  · by_cases hc : num_needed_peers env > 0 ∧ ¬ env.now_us > nf
    · exfalso
      rw [iteration_skip env nf a0 hsize hc] at h
      rcases h with h | h <;> simp at h
    · rw [iteration_selection env nf a0 hsize hc]
      exact (selection_phase_fields env nf a0).2.2

/-- Witness for `C8_resolve_before_select`: the accepting iteration of
`env_needed_zero_accept` calls both selectors, and its trace starts with the
collision resolution. -/
theorem C8_resolve_before_select_witness :
    (Event.select_collision ∈
        (connect_to_peers_iteration env_needed_zero_accept 0 none).trace ∨
      Event.select_peer_call ∈
        (connect_to_peers_iteration env_needed_zero_accept 0 none).trace) ∧
    (connect_to_peers_iteration env_needed_zero_accept 0 none).trace.head? =
      some Event.resolve_collisions :=
  ⟨Or.inl (by decide),
    C8_resolve_before_select env_needed_zero_accept 0 none (Or.inl (by decide))⟩

/-- Every `stop()` leaves `_is_stopping` set. -/
theorem stop_flag_set (s : ServiceState) :
    (Service.stop s).state.is_stopping = true := by
  obtain ⟨st, sock, rt, ip, api⟩ := s
  cases st <;> cases rt <;> rcases ip with _ | (_ | t) <;> rfl

/-- `stop()` on an already-stopping service does nothing at all. -/
theorem stop_noop_of_stopping (s : ServiceState) (h : s.is_stopping = true) :
    Service.stop s = ⟨s, [], none⟩ := by
  unfold Service.stop
  rw [if_pos h]

/-- C9: after one `stop()` the `_is_stopping` flag is set, and any
subsequent `stop()` is a complete no-op: no error, no effects (no socket
closed, no task cancelled, no connection closed), and the service state —
started or not — is left unchanged. -/
theorem C9_stop_idempotent (s : ServiceState) :
    (Service.stop s).state.is_stopping = true ∧
    Service.stop ((Service.stop s).state) = ⟨(Service.stop s).state, [], none⟩ :=
  ⟨stop_flag_set s, stop_noop_of_stopping _ (stop_flag_set s)⟩

/-- C10: calling `stop()` on a service whose `start()` task has not run
(so `_reconnect_tasks` does not exist, as right after `__init__`) raises
`AttributeError` instead of acting as a no-op. -/
theorem C10_stop_before_start_raises (s : ServiceState)
    (hflag : s.is_stopping = false) (htasks : s.reconnect_tasks = none) :
    (Service.stop s).error = some "AttributeError: _reconnect_tasks" := by
  simp [Service.stop, hflag, htasks]

/-- Witness for `C10_stop_before_start_raises` at the freshly constructed
service state. -/
theorem C10_stop_before_start_raises_witness :
    initServiceState.is_stopping = false ∧
    initServiceState.reconnect_tasks = none ∧
    (Service.stop initServiceState).error =
      some "AttributeError: _reconnect_tasks" :=
  ⟨rfl, rfl, C10_stop_before_start_raises initServiceState rfl rfl⟩
